import Mathlib

/-
Verification of the tmux-delegate orchestrator (pi-agent-extensions).

The definitions below are a shallow embedding of the TypeScript source of the
tmux-delegate extension.  Filesystem reads, the tmux backend and clocks are
modelled as explicit environments; each embedded function carries the name of
the source function it mirrors.
-/

namespace TmuxDelegate

/-- Task and Run status values: "running" | "completed" | "failed" in the source. -/
inductive TaskStatus
  | running
  | completed
  | failed
deriving DecidableEq

/-- Terminal test, mirroring `t.status !== "running"` in the source. -/
def TaskStatus.isTerminal : TaskStatus → Bool
  | .running => false
  | .completed => true
  | .failed => true

/-- Mirrors `t.status === "failed"`. -/
def TaskStatus.isFailed : TaskStatus → Bool
  | .failed => true
  | _ => false

/-- Mirrors `t.status === "completed"`. -/
def TaskStatus.isCompleted : TaskStatus → Bool
  | .completed => true
  | _ => false

/-- Embeds the TaskState record of the source.  The optional `model` field is
kept but agent-profile resolution (an external collaborator) is out of scope. -/
structure TaskState where
  id : String
  agent : String
  task : String
  cwd : String
  status : TaskStatus
  windowName : String
  paneId : String
  outputFile : String
  exitCodeFile : String
  sessionFile : String
  startedAt : Nat
  finishedAt : Option Nat
  exitCode : Option Int
  model : Option String
deriving DecidableEq

/-- Embeds the RunState record of the source. -/
structure RunState where
  id : String
  status : TaskStatus
  createdAt : Nat
  updatedAt : Nat
  tasks : List TaskState
  runDir : String
deriving DecidableEq

/-- Result of trying to read a file: the file is absent (existsSync false),
present but the read throws, or present with the given content. -/
inductive FileRead
  | absent
  | unreadable
  | content (s : String)
deriving DecidableEq

/-- Environment consulted by one detector pass: exit-signal file reads
(indexed by path), tmux pane liveness (isTmuxPaneAlive) and the clock. -/
structure DetectEnv where
  exitFile : String → FileRead
  paneAlive : String → Bool
  now : Nat

/-- Decimal value of a digit list, most significant first. -/
def decDigitsVal (ds : List Char) : Nat :=
  ds.foldl (fun acc c => acc * 10 + (c.toNat - '0'.toNat)) 0

/-- Embeds JS Number.parseInt(s, 10): skip leading whitespace, optional sign,
then the longest run of decimal digits; none (NaN) when no digit is found. -/
def parseIntDec (s : String) : Option Int :=
  let cs := s.data.dropWhile Char.isWhitespace
  match cs with
  | '-' :: r =>
      let ds := r.takeWhile Char.isDigit
      if ds.isEmpty then none else some (-(decDigitsVal ds : Int))
  | '+' :: r =>
      let ds := r.takeWhile Char.isDigit
      if ds.isEmpty then none else some (decDigitsVal ds)
  | r =>
      let ds := r.takeWhile Char.isDigit
      if ds.isEmpty then none else some (decDigitsVal ds)

/-- Embeds the JS String.prototype.trim call: drop whitespace from both ends. -/
def jsTrim (s : String) : String :=
  ⟨((s.data.dropWhile Char.isWhitespace).reverse.dropWhile Char.isWhitespace).reverse⟩

/-- Embeds `raw.split(/\s+/)[0]` on an already-trimmed string: the first
whitespace-separated token (the empty string when the input is empty). -/
def firstToken (s : String) : String :=
  ⟨s.data.takeWhile (fun c => !c.isWhitespace)⟩

/-- Embeds refreshTaskStatus from the tmux-delegate source: terminal tasks are
left untouched; otherwise the exit-signal file is the primary signal (first
token of the trimmed content parsed as a decimal integer, unparseable mapped
to exit code 1), and only when that file is absent or unreadable does the
liveness fallback run, guarded by a non-empty pane id. -/
def refreshTaskStatus (env : DetectEnv) (t : TaskState) : TaskState :=
  if t.status ≠ .running then t
  else
    match env.exitFile t.exitCodeFile with
    | .content raw =>
        let code := parseIntDec (firstToken (jsTrim raw))
        let ec : Int := code.getD 1
        { t with
          exitCode := some ec
          status := if ec = 0 then .completed else .failed
          finishedAt := some env.now }
    | _ =>
        if t.paneId ≠ "" ∧ ¬ env.paneAlive t.paneId then
          { t with status := .failed, exitCode := some 1, finishedAt := some env.now }
        else t

/-- Embeds refreshRunState: refresh every task, then recompute the run status
only when every task is terminal; always bump updatedAt. -/
def refreshRunState (env : DetectEnv) (s : RunState) : RunState :=
  let tasks := s.tasks.map (refreshTaskStatus env)
  let allDone := tasks.all fun t => t.status.isTerminal
  let status :=
    if allDone then
      if tasks.any fun t => t.status.isFailed then TaskStatus.failed else TaskStatus.completed
    else s.status
  { s with tasks := tasks, status := status, updatedAt := env.now }

/-- Modelled from the spec wording, for comparison with the code: the Run
status as a pure function of its Task statuses (Completed iff all Completed,
Failed iff all terminal and some Failed, otherwise Running). -/
def specRunStatus (tasks : List TaskState) : TaskStatus :=
  if tasks.all fun t => t.status.isCompleted then .completed
  else if (tasks.all fun t => t.status.isTerminal) && (tasks.any fun t => t.status.isFailed) then .failed
  else .running

/-- Folding a list of detector passes over one task. -/
def detectFold (envs : List DetectEnv) (t : TaskState) : TaskState :=
  envs.foldl (fun acc e => refreshTaskStatus e acc) t

section BasicLemmas

theorem isTerminal_iff (st : TaskStatus) : st.isTerminal = true ↔ st ≠ .running := by
  cases st <;> simp [TaskStatus.isTerminal]

theorem isFailed_iff (st : TaskStatus) : st.isFailed = true ↔ st = .failed := by
  cases st <;> simp [TaskStatus.isFailed]

theorem isCompleted_iff (st : TaskStatus) : st.isCompleted = true ↔ st = .completed := by
  cases st <;> simp [TaskStatus.isCompleted]

theorem completed_of_terminal_not_failed (st : TaskStatus)
    (h1 : st.isTerminal = true) (h2 : st.isFailed = false) : st = .completed := by
  cases st <;> simp_all [TaskStatus.isTerminal, TaskStatus.isFailed]

/-- A terminal task is untouched by the detector. -/
theorem refreshTaskStatus_terminal (env : DetectEnv) (t : TaskState)
    (h : t.status ≠ .running) : refreshTaskStatus env t = t := by
  simp [refreshTaskStatus, h]

/-- Unfolding equation for the detector when the exit-signal file has content. -/
theorem refreshTaskStatus_content_eq (env : DetectEnv) (t : TaskState) (raw : String)
    (h0 : t.status = .running)
    (henv : env.exitFile t.exitCodeFile = .content raw) :
    refreshTaskStatus env t =
      { t with
        exitCode := some ((parseIntDec (firstToken (jsTrim raw))).getD 1)
        status := if (parseIntDec (firstToken (jsTrim raw))).getD 1 = 0 then .completed else .failed
        finishedAt := some env.now } := by
  unfold refreshTaskStatus
  rw [if_neg (fun hne => hne h0), henv]

/-- Unfolding equation for the detector when the exit-signal file is absent or
unreadable: only the liveness fallback runs. -/
theorem refreshTaskStatus_noFile_eq (env : DetectEnv) (t : TaskState)
    (h0 : t.status = .running)
    (henv : env.exitFile t.exitCodeFile = .absent ∨ env.exitFile t.exitCodeFile = .unreadable) :
    refreshTaskStatus env t =
      if t.paneId ≠ "" ∧ ¬ env.paneAlive t.paneId then
        { t with status := .failed, exitCode := some 1, finishedAt := some env.now }
      else t := by
  unfold refreshTaskStatus
  rw [if_neg (fun hne => hne h0)]
  rcases henv with henv | henv <;> rw [henv]

/-- A task that is still running after a detector pass was not changed at all
by that pass. -/
theorem refreshTaskStatus_running_eq (env : DetectEnv) (t : TaskState)
    (h : (refreshTaskStatus env t).status = .running) :
    refreshTaskStatus env t = t := by
  by_cases h0 : t.status = .running
  · cases henv : env.exitFile t.exitCodeFile with
    | content raw =>
        rw [refreshTaskStatus_content_eq env t raw h0 henv] at h
        rcases em ((parseIntDec (firstToken (jsTrim raw))).getD 1 = 0) with hz | hz <;>
          simp [hz] at h
    | absent =>
        rw [refreshTaskStatus_noFile_eq env t h0 (Or.inl henv)] at h ⊢
        by_cases hc : t.paneId ≠ "" ∧ ¬ env.paneAlive t.paneId
        · rw [if_pos hc] at h; simp at h
        · rw [if_neg hc]
    | unreadable =>
        rw [refreshTaskStatus_noFile_eq env t h0 (Or.inr henv)] at h ⊢
        by_cases hc : t.paneId ≠ "" ∧ ¬ env.paneAlive t.paneId
        · rw [if_pos hc] at h; simp at h
        · rw [if_neg hc]
  · exact refreshTaskStatus_terminal env t h0

end BasicLemmas

/-- One normalized task spec, as produced by normalizeTasks in the source. -/
structure NormalizedTask where
  agentName : Option String
  task : String
  cwd : Option String
deriving DecidableEq

/-- One entry of the `tasks` array parameter. -/
structure TaskItem where
  agent : Option String
  task : String
  cwd : Option String
deriving DecidableEq

/-- Embeds the TmuxDelegate tool parameters relevant to orchestration
(agentScope only affects agent discovery, an external collaborator). -/
structure DelegateParams where
  task : Option String
  agent : Option String
  cwd : Option String
  tasks : Option (List TaskItem)
  wait : Option Bool
deriving DecidableEq

/-- Single-mode fallback of normalizeTasks: `if (params.task)` is JS string
truthiness, so the empty string yields no task. -/
def normalizeSingle (p : DelegateParams) : List NormalizedTask :=
  match p.task with
  | some t => if t ≠ "" then [⟨p.agent, t, p.cwd⟩] else []
  | none => []

/-- Embeds normalizeTasks: a non-empty `tasks` array wins, otherwise the
single-mode parameters are used. -/
def normalizeTasks (p : DelegateParams) : List NormalizedTask :=
  match p.tasks with
  | some ts =>
      if ts.length > 0 then ts.map (fun t => ⟨t.agent, t.task, t.cwd⟩)
      else normalizeSingle p
  | none => normalizeSingle p

/-- JS truthiness of a string-or-nullish value (null, undefined and the empty
string are falsy). -/
def strTruthy : Option String → Bool
  | some s => s != ""
  | none => false

/-- Embeds createChildSessionFile: the path of the new child session file,
sessionDir/now_uuid8.jsonl (header contents are out of scope). -/
def createChildSessionFile (sessionDir : String) (now : Nat) (uuid8 : String) : String :=
  sessionDir ++ "/" ++ toString now ++ "_" ++ uuid8 ++ ".jsonl"

/-- Outcome of one tmux spawn request: a pane id, or a rejection (both
new-window and the new-session fallback failed, so spawnTaskInTmux throws). -/
inductive SpawnResult
  | ok (paneId : String)
  | err
deriving DecidableEq

/-- Environment of one TmuxDelegate execute call: backend spawn outcomes and
fresh ids per task index, the clock, the caller working directory and the
caller session manager state, the run id and the temp directory. -/
structure LaunchEnv where
  spawn : Nat → SpawnResult
  uuid8 : Nat → String
  now : Nat
  ctxCwd : String
  parentSessionFile : Option String
  parentSessionDir : Option String
  runId : String
  tmpdir : String

/-- The session-linking decision of TmuxDelegate execute:
`parentSessionFile && parentSessionDir && sameProject`. -/
def linkDecision (env : LaunchEnv) (t : NormalizedTask) : Bool :=
  strTruthy env.parentSessionFile && strTruthy env.parentSessionDir
    && (t.cwd.getD env.ctxCwd == env.ctxCwd)

/-- RUNS_BASE_DIR joined with the run id. -/
def runDirOf (tmpdir runId : String) : String :=
  tmpdir ++ "/pi-tmux-delegate/" ++ runId

/-- Per-task capture file path, as in spawnTaskInTmux. -/
def runTaskOutputFile (runDir : String) (i : Nat) : String :=
  runDir ++ "/task-" ++ toString i ++ "-output.txt"

/-- Per-task exit-signal file path, as in spawnTaskInTmux. -/
def runTaskExitCodeFile (runDir : String) (i : Nat) : String :=
  runDir ++ "/task-" ++ toString i ++ "-exitcode.txt"

/-- One iteration of the TmuxDelegate launch loop for task index i: the
session-linking decision, then spawnTaskInTmux; the catch branch records an
immediately Failed task with exit code 1 and empty backend fields. -/
def launchTask (env : LaunchEnv) (runDir : String) (i : Nat) (t : NormalizedTask) : TaskState :=
  let taskCwd := t.cwd.getD env.ctxCwd
  let childSessionFile : Option String :=
    if linkDecision env t then
      some (createChildSessionFile (env.parentSessionDir.getD "") env.now (env.uuid8 i))
    else none
  let agentName := t.agentName.getD "task"
  match env.spawn i with
  | .ok paneId =>
      { id := env.uuid8 i
        agent := agentName
        task := t.task
        cwd := taskCwd
        status := .running
        windowName := "delegate:" ++ agentName ++ ":" ++ env.uuid8 i
        paneId := paneId
        outputFile := runTaskOutputFile runDir i
        exitCodeFile := runTaskExitCodeFile runDir i
        sessionFile := childSessionFile.getD ""
        startedAt := env.now
        finishedAt := none
        exitCode := none
        model := none }
  | .err =>
      { id := env.uuid8 i
        agent := agentName
        task := t.task
        cwd := taskCwd
        status := .failed
        windowName := ""
        paneId := ""
        outputFile := ""
        exitCodeFile := ""
        sessionFile := childSessionFile.getD ""
        startedAt := env.now
        finishedAt := some env.now
        exitCode := some 1
        model := none }

/-- The launch loop of TmuxDelegate execute, from task index i onward. -/
def launchTasks (env : LaunchEnv) (runDir : String) : Nat → List NormalizedTask → List TaskState
  | _, [] => []
  | i, t :: rest => launchTask env runDir i t :: launchTasks env runDir (i + 1) rest

/-- Observable side effects of one TmuxDelegate or TmuxDelegateStatus call. -/
inductive Effect
  | mkRunDir (runId : String)
  | mkChildSession (i : Nat)
  | spawnAttempt (i : Nat)
  | writeState (runId : String)
  | emitStarted (runId : String)
  | setActive (runId : String)
deriving DecidableEq

/-- Side effects of the launch loop, in source order: the child session file
is created (when linked) before the spawn request of the same task. -/
def launchEffects (env : LaunchEnv) : Nat → List NormalizedTask → List Effect
  | _, [] => []
  | i, t :: rest =>
      ((if linkDecision env t then [Effect.mkChildSession i] else []) ++ [Effect.spawnAttempt i])
        ++ launchEffects env (i + 1) rest

/-- MAX_PARALLEL_TASKS from the source. -/
def MAX_PARALLEL_TASKS : Nat := 8

/-- The initial RunState persisted by TmuxDelegate execute right after the
launch loop: the run status starts as running unconditionally. -/
def initialRunState (env : LaunchEnv) (taskList : List NormalizedTask) : RunState :=
  { id := env.runId
    status := .running
    createdAt := env.now
    updatedAt := env.now
    tasks := launchTasks env (runDirOf env.tmpdir env.runId) 0 taskList
    runDir := runDirOf env.tmpdir env.runId }

/-- Result of the TmuxDelegate execute validation and launch phase. -/
inductive DelegateOutcome
  | noTasks
  | tooManyTasks (n : Nat)
  | launched (state : RunState)
deriving DecidableEq

/-- Projection of a launched outcome. -/
def launchedState : DelegateOutcome → Option RunState
  | .launched s => some s
  | _ => none

/-- Embeds the validation and launch phase of TmuxDelegate execute (the tmux
availability precondition is assumed; it returns its own error before this
code runs).  Validation errors happen before the run directory is created,
before any spawn and before any state is persisted, hence empty effects. -/
def executeDelegate (env : LaunchEnv) (p : DelegateParams) :
    DelegateOutcome × List Effect :=
  let taskList := normalizeTasks p
  if taskList.length = 0 then (.noTasks, [])
  else if taskList.length > MAX_PARALLEL_TASKS then (.tooManyTasks taskList.length, [])
  else
    (.launched (initialRunState env taskList),
      Effect.mkRunDir env.runId ::
        launchEffects env 0 taskList
          ++ [Effect.writeState env.runId, Effect.emitStarted env.runId])

section LaunchLemmas

theorem launchTasks_length (env : LaunchEnv) (runDir : String) :
    ∀ (start : Nat) (l : List NormalizedTask),
      (launchTasks env runDir start l).length = l.length := by
  intro start l
  induction l generalizing start with
  | nil => rfl
  | cons t rest ih => simp [launchTasks, ih]

theorem launchTasks_getElem? (env : LaunchEnv) (runDir : String) :
    ∀ (l : List NormalizedTask) (start j : Nat),
      (launchTasks env runDir start l)[j]? =
        (l[j]?).map (launchTask env runDir (start + j)) := by
  intro l
  induction l with
  | nil => intro start j; simp [launchTasks]
  | cons t rest ih =>
      intro start j
      cases j with
      | zero => simp [launchTasks]
      | succ j =>
          simp only [launchTasks, List.getElem?_cons_succ]
          rw [ih (start + 1) j]
          have harith : start + 1 + j = start + (j + 1) := by omega
          rw [harith]

/-- The created child session path is never the empty string. -/
theorem createChildSessionFile_ne_empty (sessionDir : String) (now : Nat) (uuid8 : String) :
    createChildSessionFile sessionDir now uuid8 ≠ "" := by
  intro h
  have hlen := congrArg String.length h
  simp only [createChildSessionFile, String.length_append] at hlen
  have h6 : (".jsonl" : String).length = 6 := rfl
  have h0 : ("" : String).length = 0 := rfl
  rw [h6, h0] at hlen
  omega

end LaunchLemmas

/-- Interval passed by TmuxDelegate execute to waitForCompletion
(the literal 2000 at the call site). -/
def SYNC_WAIT_INTERVAL_MS : Nat := 2000

/-- Interval of the background poll timer (the literal 5000 in setInterval). -/
def POLL_INTERVAL_MS : Nat := 5000

/-- Embeds waitForCompletion for a non-aborted signal: each check refreshes
and persists, returning as soon as the run is terminal; the environment list
supplies one filesystem and backend snapshot per poll iteration, and
intervalMs only controls timing, which the model abstracts away. -/
def waitForCompletion (intervalMs : Nat) : List DetectEnv → RunState → RunState
  | [], s => s
  | env :: rest, s =>
      let s₂ := refreshRunState env s
      if s₂.status.isTerminal then s₂ else waitForCompletion intervalMs rest s₂

/-- Environment for reading task output capture files. -/
structure FileEnv where
  read : String → FileRead

/-- Embeds the JS split("\n") call: split into lines at each newline
(the empty string yields one empty line). -/
def splitLinesAux : List Char → List Char → List String
  | [], acc => [⟨acc.reverse⟩]
  | c :: rest, acc =>
      if c = '\n' then (⟨acc.reverse⟩ : String) :: splitLinesAux rest []
      else splitLinesAux rest (c :: acc)

/-- Lines of a string, JS split("\n") semantics. -/
def splitLines (s : String) : List String :=
  splitLinesAux s.data []

/-- Embeds the JS join("\n") call on a line list. -/
def joinLines : List String → String
  | [] => ""
  | [x] => x
  | x :: xs => x ++ "\n" ++ joinLines xs

/-- Embeds readTaskOutput: placeholder strings for missing, unreadable or
empty capture files, and a tail cut keeping the last `tail` lines when the
file has more (`tail && tail > 0` is JS number truthiness). -/
def readTaskOutput (files : FileEnv) (t : TaskState) (tail : Option Int) : String :=
  match files.read t.outputFile with
  | .absent => "(no output yet)"
  | .unreadable => "(error reading output)"
  | .content c =>
      if c = "" then "(empty output)"
      else
        match tail with
        | some n =>
            if 0 < n then
              let lines := splitLines c
              if (lines.length : Int) > n then
                "... (" ++ toString (lines.length - n.toNat) ++ " lines omitted)\n" ++
                  joinLines (lines.drop (lines.length - n.toNat))
              else c
            else c
        | none => c

/-- Status text of a task status, as serialized in tool output. -/
def statusLabel : TaskStatus → String
  | .running => "running"
  | .completed => "completed"
  | .failed => "failed"

/-- One entry of the sync-mode summary text: agent, status, exit code
(`t.exitCode ?? "?"`) and the output tail of 30 lines. -/
def taskSummary (files : FileEnv) (t : TaskState) : String :=
  "[" ++ t.agent ++ "] " ++ statusLabel t.status ++ " (exit " ++
    (match t.exitCode with
     | some c => toString c
     | none => "?") ++ ")\n" ++
    readTaskOutput files t (some 30)

/-- Embeds the wait branch of TmuxDelegate execute: block through
waitForCompletion at SYNC_WAIT_INTERVAL_MS, then return the resulting run
together with the per-task summaries that carry each captured output. -/
def syncReturn (files : FileEnv) (passes : List DetectEnv) (s₀ : RunState) :
    RunState × List String :=
  let s := waitForCompletion SYNC_WAIT_INTERVAL_MS passes s₀
  (s, s.tasks.map (taskSummary files))

/-- Environment of one TmuxDelegateStatus execute call: the durable state
read from disk (none when the state file is missing or unparseable), the
in-memory activeRuns entry, and detector and file environments. -/
structure StatusEnv where
  disk : Option RunState
  active : Option RunState
  detect : DetectEnv
  files : FileEnv

/-- Result of TmuxDelegateStatus execute: not-found, or the refreshed run
with the optional per-task outputs. -/
inductive StatusResult
  | notFound
  | ok (state : RunState) (outputs : Option (List String))
deriving DecidableEq

/-- The found path of TmuxDelegateStatus execute: refresh, persist, re-insert
into activeRuns, include per-task output when requested (tail default 50,
output default false). -/
def statusFound (env : StatusEnv) (tail? : Option Int) (output? : Option Bool)
    (s : RunState) : StatusResult × List Effect :=
  let s₂ := refreshRunState env.detect s
  let tail := tail?.getD 50
  let includeOutput := output?.getD false
  (StatusResult.ok s₂
      (if includeOutput then
        some (s₂.tasks.map fun t => readTaskOutput env.files t (some tail))
      else none),
    [Effect.writeState s₂.id, Effect.setActive s₂.id])

/-- Embeds TmuxDelegateStatus execute: durable state first, then the
in-memory activeRuns entry, and a not-found error only when both are absent. -/
def executeStatus (env : StatusEnv) (tail? : Option Int) (output? : Option Bool) :
    StatusResult × List Effect :=
  match env.disk with
  | some s => statusFound env tail? output? s
  | none =>
      match env.active with
      | some s => statusFound env tail? output? s
      | none => (StatusResult.notFound, [])

/-- In-memory tracking of one run by the extension closure: its RunState (the
persisted copy is kept in sync by writeRunState after every refresh), whether
it is in the activeRuns map, and how many tmux-delegate:complete events have
been emitted for it. -/
structure Orch where
  run : RunState
  inActive : Bool
  completeEvents : Nat
deriving DecidableEq

/-- Embeds the body of the background poll timer for one run: skip runs not
in activeRuns; skip terminal runs; otherwise refresh, persist, and on a
transition to terminal emit tmux-delegate:complete once and drop the run
from activeRuns. -/
def stepPoll (env : DetectEnv) (o : Orch) : Orch :=
  if !o.inActive then o
  else if o.run.status.isTerminal then o
  else
    let s₂ := refreshRunState env o.run
    if s₂.status.isTerminal then
      { run := s₂, inActive := false, completeEvents := o.completeEvents + 1 }
    else { o with run := s₂ }

/-- Embeds one check() iteration of waitForCompletion: refresh and persist;
no event is emitted and the activeRuns membership is untouched. -/
def stepWaitPass (env : DetectEnv) (o : Orch) : Orch :=
  { o with run := refreshRunState env o.run }

/-- Embeds the refresh part of TmuxDelegateStatus execute on a tracked run:
refresh, persist, and re-insert into activeRuns; no event is emitted. -/
def stepStatus (env : DetectEnv) (o : Orch) : Orch :=
  { run := refreshRunState env o.run, inActive := true, completeEvents := o.completeEvents }

section Fixtures

/-- A concrete running task used by witnesses and counterexamples. -/
def sampleTask : TaskState :=
  { id := "t0000001"
    agent := "worker"
    task := "do the thing"
    cwd := "/w"
    status := .running
    windowName := "delegate:worker:t0000001"
    paneId := "%1"
    outputFile := "/r/task-0-output.txt"
    exitCodeFile := "/r/task-0-exitcode.txt"
    sessionFile := ""
    startedAt := 0
    finishedAt := none
    exitCode := none
    model := none }

/-- A concrete running task with an empty backend handle. -/
def orphanTask : TaskState :=
  { sampleTask with id := "t0000002", paneId := "" }

/-- A concrete task already in a terminal status. -/
def failedTask : TaskState :=
  { sampleTask with id := "t0000003", status := .failed, exitCode := some 2, finishedAt := some 4 }

/-- A concrete single-task run in running status. -/
def sampleRun : RunState :=
  { id := "r1", status := .running, createdAt := 0, updatedAt := 0,
    tasks := [sampleTask], runDir := "/r" }

/-- Detector environment where every exit-signal file reads "0". -/
def exitZeroEnv : DetectEnv :=
  { exitFile := fun _ => .content "0", paneAlive := fun _ => true, now := 7 }

/-- Detector environment where every exit-signal file is absent and every
pane is reported dead. -/
def noFileDeadEnv : DetectEnv :=
  { exitFile := fun _ => .absent, paneAlive := fun _ => false, now := 9 }

/-- File environment with no readable captures. -/
def emptyFiles : FileEnv :=
  { read := fun _ => .absent }

end Fixtures

section ClaimC1

/-- Claim C1: for every Task in Running status whose exit-signal file exists,
one invocation of refreshTaskStatus makes the Task terminal according to the
file content: the first whitespace-separated token of the trimmed content is
parsed as a decimal integer; token 0 yields Completed with exitCode 0, any
other parseable integer yields Failed with that integer as exitCode, and
unparseable content yields Failed with exitCode 1; finishedAt is set at the
transition. -/
theorem c1_exit_signal_completion (env : DetectEnv) (t : TaskState) (raw : String)
    (hrun : t.status = .running)
    (hfile : env.exitFile t.exitCodeFile = FileRead.content raw) :
    ((refreshTaskStatus env t).status.isTerminal = true) ∧
    (parseIntDec (firstToken (jsTrim raw)) = some 0 →
        (refreshTaskStatus env t).status = .completed ∧
        (refreshTaskStatus env t).exitCode = some 0) ∧
    (∀ c : Int, parseIntDec (firstToken (jsTrim raw)) = some c → c ≠ 0 →
        (refreshTaskStatus env t).status = .failed ∧
        (refreshTaskStatus env t).exitCode = some c) ∧
    (parseIntDec (firstToken (jsTrim raw)) = none →
        (refreshTaskStatus env t).status = .failed ∧
        (refreshTaskStatus env t).exitCode = some 1) ∧
    (refreshTaskStatus env t).finishedAt = some env.now := by
  rw [refreshTaskStatus_content_eq env t raw hrun hfile]
  refine ⟨?_, ?_, ?_, ?_, rfl⟩
  · by_cases hz : (parseIntDec (firstToken (jsTrim raw))).getD 1 = 0 <;>
      simp [hz, TaskStatus.isTerminal]
  · intro hp; simp [hp]
  · intro c hp hc; simp [hp, hc]
  · intro hp; simp [hp]

/-- Witness for C1 at the exit-signal content "0". -/
theorem c1_exit_signal_completion_witness :
    sampleTask.status = .running ∧
    exitZeroEnv.exitFile sampleTask.exitCodeFile = FileRead.content "0" ∧
    (((refreshTaskStatus exitZeroEnv sampleTask).status.isTerminal = true) ∧
      (parseIntDec (firstToken (jsTrim "0")) = some 0 →
          (refreshTaskStatus exitZeroEnv sampleTask).status = .completed ∧
          (refreshTaskStatus exitZeroEnv sampleTask).exitCode = some 0) ∧
      (∀ c : Int, parseIntDec (firstToken (jsTrim "0")) = some c → c ≠ 0 →
          (refreshTaskStatus exitZeroEnv sampleTask).status = .failed ∧
          (refreshTaskStatus exitZeroEnv sampleTask).exitCode = some c) ∧
      (parseIntDec (firstToken (jsTrim "0")) = none →
          (refreshTaskStatus exitZeroEnv sampleTask).status = .failed ∧
          (refreshTaskStatus exitZeroEnv sampleTask).exitCode = some 1) ∧
      (refreshTaskStatus exitZeroEnv sampleTask).finishedAt = some exitZeroEnv.now) :=
  ⟨rfl, rfl, c1_exit_signal_completion exitZeroEnv sampleTask "0" rfl rfl⟩

end ClaimC1

section ClaimC9

/-- Claim C9: applying the Completion Detector to a Task already in a
terminal status is a no-op: the whole Task record, hence its status,
exitCode and finishedAt, is unchanged by any number of further invocations,
and the pure detector touches nothing outside the Task. -/
theorem c9_terminal_noop (t : TaskState) (hterm : t.status ≠ .running) :
    (∀ env : DetectEnv, refreshTaskStatus env t = t) ∧
    (∀ envs : List DetectEnv, detectFold envs t = t) := by
  refine ⟨fun env => refreshTaskStatus_terminal env t hterm, fun envs => ?_⟩
  induction envs with
  | nil => rfl
  | cons e rest ih =>
      unfold detectFold at ih ⊢
      rw [List.foldl_cons, refreshTaskStatus_terminal e t hterm]
      exact ih

/-- Witness for C9 at a concrete terminal task and two detector passes. -/
theorem c9_terminal_noop_witness :
    refreshTaskStatus exitZeroEnv failedTask = failedTask ∧
    detectFold [exitZeroEnv, noFileDeadEnv] failedTask = failedTask :=
  ⟨(c9_terminal_noop failedTask (by decide)).1 exitZeroEnv,
   (c9_terminal_noop failedTask (by decide)).2 [exitZeroEnv, noFileDeadEnv]⟩

end ClaimC9

section ClaimC10

/-- Claim C10: a Running task whose backend handle is the empty string and
whose exit-signal file is absent is left exactly as it is by every detector
invocation: the liveness fallback is skipped for an empty pane id, so the
task stays Running for any number of such passes. -/
theorem c10_empty_handle_stays_running (t : TaskState)
    (hrun : t.status = .running) (hpane : t.paneId = "") :
    (∀ env : DetectEnv, env.exitFile t.exitCodeFile = .absent → refreshTaskStatus env t = t) ∧
    (∀ envs : List DetectEnv, (∀ e ∈ envs, e.exitFile t.exitCodeFile = .absent) →
        detectFold envs t = t ∧ (detectFold envs t).status = .running) := by
  have hstep : ∀ env : DetectEnv, env.exitFile t.exitCodeFile = .absent →
      refreshTaskStatus env t = t := by
    intro env henv
    rw [refreshTaskStatus_noFile_eq env t hrun (Or.inl henv)]
    exact if_neg (fun hc => hc.1 hpane)
  refine ⟨hstep, fun envs hall => ?_⟩
  have hfold : detectFold envs t = t := by
    induction envs with
    | nil => rfl
    | cons e rest ih =>
        unfold detectFold at ih ⊢
        rw [List.foldl_cons, hstep e (hall e (by simp))]
        exact ih fun e₂ he₂ => hall e₂ (by simp [he₂])
  exact ⟨hfold, by rw [hfold]; exact hrun⟩

/-- Witness for C10 at a concrete running task with empty pane id, a dead
backend and an absent exit-signal file. -/
theorem c10_empty_handle_stays_running_witness :
    refreshTaskStatus noFileDeadEnv orphanTask = orphanTask ∧
    (detectFold [noFileDeadEnv, noFileDeadEnv] orphanTask = orphanTask ∧
      (detectFold [noFileDeadEnv, noFileDeadEnv] orphanTask).status = .running) :=
  ⟨(c10_empty_handle_stays_running orphanTask rfl rfl).1 noFileDeadEnv rfl,
   (c10_empty_handle_stays_running orphanTask rfl rfl).2 [noFileDeadEnv, noFileDeadEnv]
     (by intro e he; simp at he; subst he; rfl)⟩

end ClaimC10

section RunInvariantLemmas

/-- The task list after a reconciliation pass. -/
theorem refreshRunState_tasks (env : DetectEnv) (s : RunState) :
    (refreshRunState env s).tasks = s.tasks.map (refreshTaskStatus env) := rfl

/-- The run status after a reconciliation pass. -/
theorem refreshRunState_status (env : DetectEnv) (s : RunState) :
    (refreshRunState env s).status =
      (if (s.tasks.map (refreshTaskStatus env)).all (fun t => t.status.isTerminal) then
        (if (s.tasks.map (refreshTaskStatus env)).any (fun t => t.status.isFailed) then
          TaskStatus.failed
        else TaskStatus.completed)
      else s.status) := rfl

/-- When the spec status of a task list is not Running, every task is terminal. -/
theorem specRunStatus_ne_running (tasks : List TaskState)
    (h : specRunStatus tasks ≠ .running) :
    ∀ t ∈ tasks, t.status.isTerminal = true := by
  intro t ht
  unfold specRunStatus at h
  by_cases h1 : (tasks.all fun u => u.status.isCompleted) = true
  · have hc := List.all_eq_true.mp h1 t ht
    rw [isCompleted_iff] at hc
    rw [hc]; rfl
  · rw [if_neg h1] at h
    by_cases h2 : ((tasks.all fun u => u.status.isTerminal)
        && (tasks.any fun u => u.status.isFailed)) = true
    · exact List.all_eq_true.mp (Bool.and_elim_left h2) t ht
    · rw [if_neg h2] at h
      exact absurd rfl h

/-- A task list in which every task is terminal is untouched by the detector. -/
theorem map_refresh_of_terminal (env : DetectEnv) (l : List TaskState)
    (h : ∀ t ∈ l, t.status.isTerminal = true) :
    l.map (refreshTaskStatus env) = l := by
  induction l with
  | nil => rfl
  | cons t rest ih =>
      rw [List.map_cons,
        refreshTaskStatus_terminal env t ((isTerminal_iff t.status).mp (h t (by simp))),
        ih (fun u hu => h u (by simp [hu]))]

/-- When every task is terminal, the recomputed run status agrees with the
spec status function. -/
theorem allDone_status_eq_spec (tasks : List TaskState)
    (hall : (tasks.all fun t => t.status.isTerminal) = true) :
    (if tasks.any fun t => t.status.isFailed then TaskStatus.failed else TaskStatus.completed)
      = specRunStatus tasks := by
  by_cases hany : (tasks.any fun t => t.status.isFailed) = true
  · rw [if_pos hany]
    obtain ⟨t, ht, htf⟩ := List.any_eq_true.mp hany
    have hnc : ¬((tasks.all fun u => u.status.isCompleted) = true) := by
      intro hc
      have hcc := List.all_eq_true.mp hc t ht
      rw [isCompleted_iff] at hcc
      rw [hcc] at htf
      exact absurd htf (by simp [TaskStatus.isFailed])
    unfold specRunStatus
    rw [if_neg hnc, if_pos (Bool.and_intro hall hany)]
  · rw [if_neg hany]
    have hc : (tasks.all fun u => u.status.isCompleted) = true := by
      refine List.all_eq_true.mpr fun t ht => ?_
      have hterm := List.all_eq_true.mp hall t ht
      have hnf : t.status.isFailed = false := by
        by_contra hb
        exact hany (List.any_eq_true.mpr ⟨t, ht, by simpa using hb⟩)
      rw [completed_of_terminal_not_failed t.status hterm hnf]
      rfl
    unfold specRunStatus
    rw [if_pos hc]

end RunInvariantLemmas

section ClaimC2

/-- Claim C2 (amended): after any reconciliation pass over a Run whose status
is Running or already agrees with the pure function of its Task statuses, the
Run status equals that pure function of the refreshed Task statuses; and a
Run that is already terminal is left unchanged by a pass except for its
updatedAt bump, so a terminal Run never reverts to Running.  The claim as
stated is refuted by c2_counterexample: the state persisted immediately after
launch always carries status Running, even when a spawn failure already makes
the pure function Failed. -/
theorem c2_run_status_invariant (env : DetectEnv) (s : RunState)
    (h : s.status = .running ∨ s.status = specRunStatus s.tasks) :
    (refreshRunState env s).status = specRunStatus (refreshRunState env s).tasks ∧
    (s.status ≠ .running → refreshRunState env s = { s with updatedAt := env.now }) := by
  by_cases hall : ((s.tasks.map (refreshTaskStatus env)).all fun t => t.status.isTerminal) = true
  · have hstat : (refreshRunState env s).status =
        (if (s.tasks.map (refreshTaskStatus env)).any (fun t => t.status.isFailed) then
          TaskStatus.failed
        else TaskStatus.completed) := by
      rw [refreshRunState_status, if_pos hall]
    constructor
    · rw [hstat, refreshRunState_tasks]
      exact allDone_status_eq_spec _ hall
    · intro hterm
      have hspec : s.status = specRunStatus s.tasks := by
        rcases h with h | h
        · exact absurd h hterm
        · exact h
      have hallsrc : ∀ t ∈ s.tasks, t.status.isTerminal = true :=
        specRunStatus_ne_running s.tasks (by rw [← hspec]; exact hterm)
      have hmap : s.tasks.map (refreshTaskStatus env) = s.tasks :=
        map_refresh_of_terminal env s.tasks hallsrc
      have hallsrc2 : (s.tasks.all fun t => t.status.isTerminal) = true :=
        List.all_eq_true.mpr hallsrc
      have hstat2 : (refreshRunState env s).status = s.status := by
        rw [hstat, hmap, allDone_status_eq_spec s.tasks hallsrc2, ← hspec]
      have htasks : (refreshRunState env s).tasks = s.tasks := by
        rw [refreshRunState_tasks, hmap]
      have hshape : refreshRunState env s =
          { id := s.id, status := (refreshRunState env s).status, createdAt := s.createdAt,
            updatedAt := env.now, tasks := (refreshRunState env s).tasks,
            runDir := s.runDir } := rfl
      rw [hshape, hstat2, htasks]
  · have hsrun : s.status = .running := by
      rcases h with h | h
      · exact h
      · by_contra hne
        have hallsrc : ∀ t ∈ s.tasks, t.status.isTerminal = true :=
          specRunStatus_ne_running s.tasks (by rw [← h]; exact hne)
        have hmap := map_refresh_of_terminal env s.tasks hallsrc
        exact hall (by rw [hmap]; exact List.all_eq_true.mpr hallsrc)
    have hstat : (refreshRunState env s).status = s.status := by
      rw [refreshRunState_status, if_neg hall]
    have hex : ∃ t, t ∈ s.tasks.map (refreshTaskStatus env) ∧ ¬(t.status.isTerminal = true) := by
      by_contra hno
      push_neg at hno
      exact hall (List.all_eq_true.mpr hno)
    obtain ⟨t₂, ht₂, hnt₂⟩ := hex
    have ht₂run : t₂.status = .running := by
      cases hst : t₂.status with
      | running => rfl
      | completed => rw [hst] at hnt₂; exact absurd rfl hnt₂
      | failed => rw [hst] at hnt₂; exact absurd rfl hnt₂
    constructor
    · rw [hstat, hsrun, refreshRunState_tasks]
      have h1 : ¬(((s.tasks.map (refreshTaskStatus env)).all fun u => u.status.isCompleted) = true) := by
        intro hc
        have hcc := List.all_eq_true.mp hc t₂ ht₂
        rw [isCompleted_iff] at hcc
        exact absurd (hcc.symm.trans ht₂run) (by decide)
      have h2 : ((s.tasks.map (refreshTaskStatus env)).all fun u => u.status.isTerminal) = false :=
        Bool.eq_false_iff.mpr hall
      unfold specRunStatus
      rw [if_neg h1]
      simp [h2]
    · intro hterm
      exact absurd hsrun hterm

/-- Launch environment for the C2 counterexample: the only spawn fails. -/
def c2Env : LaunchEnv :=
  { spawn := fun _ => .err, uuid8 := fun _ => "aaaaaaaa", now := 0, ctxCwd := "/w",
    parentSessionFile := none, parentSessionDir := none, runId := "run00001", tmpdir := "/tmp" }

/-- Parameters for the C2 counterexample: one single-mode task. -/
def c2Params : DelegateParams :=
  { task := some "do it", agent := none, cwd := none, tasks := none, wait := none }

/-- Counterexample to C2 as stated: the Run state persisted immediately after
a launch whose only spawn failed has status Running, while the pure function
of its Task statuses is Failed, so the claimed invariant does not hold in
that reachable state. -/
theorem c2_counterexample :
    (launchedState (executeDelegate c2Env c2Params).1).map RunState.status
        = some TaskStatus.running ∧
    (launchedState (executeDelegate c2Env c2Params).1).map (fun s => specRunStatus s.tasks)
        = some TaskStatus.failed :=
  ⟨by decide, by decide⟩

/-- Witness for the amended C2 at a concrete running Run. -/
theorem c2_run_status_invariant_witness :
    (refreshRunState exitZeroEnv sampleRun).status
        = specRunStatus (refreshRunState exitZeroEnv sampleRun).tasks ∧
    (sampleRun.status ≠ .running →
      refreshRunState exitZeroEnv sampleRun = { sampleRun with updatedAt := exitZeroEnv.now }) :=
  c2_run_status_invariant exitZeroEnv sampleRun (Or.inl rfl)

end ClaimC2

section ClaimC3

/-- Tracked state used by the C3 counterexample: a freshly launched run in
the activeRuns map with no completion event emitted yet. -/
def c3Start : Orch :=
  { run := sampleRun, inActive := true, completeEvents := 0 }

/-- Counterexample to C3 as stated: when a synchronous wait pass (not the
background poll) drives the Running-to-terminal transition, zero completion
events are emitted — the next background tick skips the already-terminal run
without emitting — and the run is never removed from the active set. -/
theorem c3_counterexample :
    c3Start.run.status = TaskStatus.running ∧
    (stepWaitPass exitZeroEnv c3Start).run.status = TaskStatus.completed ∧
    (stepWaitPass exitZeroEnv c3Start).completeEvents = 0 ∧
    (stepPoll exitZeroEnv (stepWaitPass exitZeroEnv c3Start)).completeEvents = 0 ∧
    (stepPoll exitZeroEnv (stepWaitPass exitZeroEnv c3Start)).inActive = true :=
  ⟨rfl, by decide, by decide, by decide, by decide⟩

/-- Claim C3 (amended): a completion notification is emitted exactly when a
background poll tick observes the Running-to-terminal transition of an
active run, and that tick also removes the run from the active set; a
transition driven by a synchronous wait pass or by a status query emits no
notification, and a poll tick over an already-terminal run is a no-op, so no
second notification can ever be emitted. -/
theorem c3_poll_emits_once (env : DetectEnv) (o : Orch)
    (h1 : o.inActive = true) (h2 : o.run.status = .running)
    (h3 : (refreshRunState env o.run).status.isTerminal = true) :
    (stepPoll env o).completeEvents = o.completeEvents + 1 ∧
    (stepPoll env o).inActive = false ∧
    (∀ e : DetectEnv, (stepWaitPass e o).completeEvents = o.completeEvents ∧
      (stepStatus e o).completeEvents = o.completeEvents) ∧
    (∀ (e : DetectEnv) (o₂ : Orch), o₂.run.status.isTerminal = true → stepPoll e o₂ = o₂) := by
  have hstep : stepPoll env o =
      { run := refreshRunState env o.run, inActive := false,
        completeEvents := o.completeEvents + 1 } := by
    unfold stepPoll
    rw [h1]
    simp only [Bool.not_true, Bool.false_eq_true, if_false]
    rw [h2]
    rw [if_neg (by decide : ¬(TaskStatus.running.isTerminal = true))]
    rw [if_pos h3]
  refine ⟨by rw [hstep], by rw [hstep], fun e => ⟨rfl, rfl⟩, fun e o₂ hterm => ?_⟩
  unfold stepPoll
  by_cases ha : o₂.inActive
  · rw [ha]
    simp only [Bool.not_true, Bool.false_eq_true, if_false]
    rw [if_pos hterm]
  · have ha₂ : o₂.inActive = false := Bool.eq_false_iff.mpr ha
    rw [ha₂]
    simp

/-- Witness for the amended C3 at the concrete tracked run. -/
theorem c3_poll_emits_once_witness :
    (stepPoll exitZeroEnv c3Start).completeEvents = c3Start.completeEvents + 1 ∧
    (stepPoll exitZeroEnv c3Start).inActive = false ∧
    (∀ e : DetectEnv, (stepWaitPass e c3Start).completeEvents = c3Start.completeEvents ∧
      (stepStatus e c3Start).completeEvents = c3Start.completeEvents) ∧
    (∀ (e : DetectEnv) (o₂ : Orch), o₂.run.status.isTerminal = true → stepPoll e o₂ = o₂) :=
  c3_poll_emits_once exitZeroEnv c3Start rfl rfl (by decide)

end ClaimC3

section ClaimC4

/-- Counterexample to C4 as stated: the synchronous wait polls every 2000 ms
(the literal passed to waitForCompletion by TmuxDelegate execute), which is
not the 5000 ms interval of the background reconciliation timer. -/
theorem c4_counterexample :
    SYNC_WAIT_INTERVAL_MS = 2000 ∧ POLL_INTERVAL_MS = 5000 ∧
    SYNC_WAIT_INTERVAL_MS ≠ POLL_INTERVAL_MS :=
  ⟨rfl, rfl, by decide⟩

/-- Claim C4 (amended): in sync mode the call blocks through
waitForCompletion, polling at a fixed 2-second interval (the background loop
uses 5 seconds), until the Run status is terminal; as soon as a pass leaves
the Run terminal, the full refreshed Run is returned together with one
summary per task carrying its captured output. -/
theorem c4_sync_wait (files : FileEnv) (passes : List DetectEnv) (env : DetectEnv)
    (s : RunState) (h : (refreshRunState env s).status.isTerminal = true) :
    syncReturn files (env :: passes) s =
      (refreshRunState env s, (refreshRunState env s).tasks.map (taskSummary files)) ∧
    SYNC_WAIT_INTERVAL_MS = 2000 ∧ POLL_INTERVAL_MS = 5000 := by
  refine ⟨?_, rfl, rfl⟩
  unfold syncReturn waitForCompletion
  rw [if_pos h]

/-- Witness for the amended C4: a single pass over the sample run with exit
code 0 terminates the wait immediately. -/
theorem c4_sync_wait_witness :
    syncReturn emptyFiles [exitZeroEnv] sampleRun =
      (refreshRunState exitZeroEnv sampleRun,
        (refreshRunState exitZeroEnv sampleRun).tasks.map (taskSummary emptyFiles)) ∧
    SYNC_WAIT_INTERVAL_MS = 2000 ∧ POLL_INTERVAL_MS = 5000 :=
  c4_sync_wait emptyFiles [] exitZeroEnv sampleRun (by decide)

end ClaimC4

section ClaimC5

/-- Status environment for the C5 counterexample: the run is still in the
in-memory active map, but its durable state file is gone (external cleanup
of the temp directory), so readRunState yields nothing. -/
def c5DiskGone : StatusEnv :=
  { disk := none, active := some sampleRun, detect := exitZeroEnv, files := emptyFiles }

/-- Counterexample to C5 as stated: with no durable state on disk but the run
present in the in-memory active map, the status query does not return the
not-found error, so RunNotFound is not equivalent to the absence of durable
state alone. -/
theorem c5_counterexample :
    c5DiskGone.disk = none ∧
    (executeStatus c5DiskGone none none).1 ≠ StatusResult.notFound :=
  ⟨rfl, by decide⟩

/-- Claim C5 (amended): a status query re-runs the Completion Detector on the
whole Run (terminal tasks are untouched by it), persists the refreshed state
and returns the full Run with optional output inclusion under the tail-line
limit; it returns RunNotFound if and only if no durable state exists on disk
AND the run id is absent from the in-memory active map. -/
theorem c5_status_query (env : StatusEnv) (tail? : Option Int) (output? : Option Bool) :
    ((executeStatus env tail? output?).1 = StatusResult.notFound ↔
        env.disk = none ∧ env.active = none) ∧
    (∀ s : RunState, env.disk = some s ∨ (env.disk = none ∧ env.active = some s) →
        (executeStatus env tail? output?).1 =
          StatusResult.ok (refreshRunState env.detect s)
            (if output?.getD false then
              some ((refreshRunState env.detect s).tasks.map fun t =>
                readTaskOutput env.files t (some (tail?.getD 50)))
            else none) ∧
        (executeStatus env tail? output?).2 =
          [Effect.writeState (refreshRunState env.detect s).id,
            Effect.setActive (refreshRunState env.detect s).id]) := by
  constructor
  · constructor
    · intro h
      cases hd : env.disk with
      | some s =>
          rw [show executeStatus env tail? output? = statusFound env tail? output? s by
            unfold executeStatus; rw [hd]] at h
          simp [statusFound] at h
      | none =>
          cases ha : env.active with
          | some s =>
              rw [show executeStatus env tail? output? = statusFound env tail? output? s by
                unfold executeStatus; rw [hd, ha]] at h
              simp [statusFound] at h
          | none => exact ⟨rfl, rfl⟩

    · rintro ⟨hd, ha⟩
      unfold executeStatus
      rw [hd, ha]
  · rintro s (hd | ⟨hd, ha⟩)
    · rw [show executeStatus env tail? output? = statusFound env tail? output? s by
        unfold executeStatus; rw [hd]]
      exact ⟨rfl, rfl⟩
    · rw [show executeStatus env tail? output? = statusFound env tail? output? s by
        unfold executeStatus; rw [hd, ha]]
      exact ⟨rfl, rfl⟩

/-- Witness for the amended C5: both sources absent yields RunNotFound, and a
run found on disk is refreshed and persisted. -/
theorem c5_status_query_witness :
    (executeStatus { disk := none, active := none, detect := exitZeroEnv, files := emptyFiles }
        none none).1 = StatusResult.notFound :=
  (c5_status_query
    { disk := none, active := none, detect := exitZeroEnv, files := emptyFiles }
    none none).1.mpr ⟨rfl, rfl⟩

end ClaimC5

section ClaimC6

/-- Claim C6: a launched task gets a non-empty linked child session reference
if and only if the caller session file and session directory are both present
(JS-truthy) and the task working directory equals the caller working
directory; a task whose working directory differs never gets one, whatever
the caller session state is. -/
theorem c6_session_link_iff (env : LaunchEnv) (runDir : String) (i : Nat)
    (t : NormalizedTask) :
    ((launchTask env runDir i t).sessionFile ≠ "" ↔
      (strTruthy env.parentSessionFile = true ∧ strTruthy env.parentSessionDir = true ∧
        t.cwd.getD env.ctxCwd = env.ctxCwd)) ∧
    (t.cwd.getD env.ctxCwd ≠ env.ctxCwd → (launchTask env runDir i t).sessionFile = "") := by
  have hsess : (launchTask env runDir i t).sessionFile =
      (if linkDecision env t then
        some (createChildSessionFile (env.parentSessionDir.getD "") env.now (env.uuid8 i))
      else none).getD "" := by
    unfold launchTask
    cases env.spawn i <;> rfl
  have hiff : linkDecision env t = true ↔
      (strTruthy env.parentSessionFile = true ∧ strTruthy env.parentSessionDir = true ∧
        t.cwd.getD env.ctxCwd = env.ctxCwd) := by
    unfold linkDecision
    constructor
    · intro hl
      have h12 := Bool.and_elim_left hl
      refine ⟨Bool.and_elim_left h12, Bool.and_elim_right h12, ?_⟩
      have := Bool.and_elim_right hl
      exact eq_of_beq this
    · rintro ⟨h1, h2, h3⟩
      exact Bool.and_intro (Bool.and_intro h1 h2) (by rw [h3]; exact beq_self_eq_true _)
  constructor
  · rw [hsess]
    by_cases hl : linkDecision env t = true
    · rw [hl]
      simp only [if_true, Option.getD_some]
      constructor
      · intro _
        exact hiff.mp hl
      · intro _
        exact createChildSessionFile_ne_empty _ _ _
    · have hl₂ : linkDecision env t = false := Bool.eq_false_iff.mpr hl
      rw [hl₂]
      simp only [Bool.false_eq_true, if_false, Option.getD_none]
      constructor
      · intro habs
        exact absurd rfl habs
      · intro hcond
        exact absurd (hiff.mpr hcond) hl
  · intro hdiff
    rw [hsess]
    have hb : (t.cwd.getD env.ctxCwd == env.ctxCwd) = false := by
      by_contra hbb
      have : (t.cwd.getD env.ctxCwd == env.ctxCwd) = true := by
        cases hx : (t.cwd.getD env.ctxCwd == env.ctxCwd)
        · exact absurd hx hbb
        · rfl
      exact hdiff (eq_of_beq this)
    have hl₂ : linkDecision env t = false := by
      unfold linkDecision
      rw [hb, Bool.and_false]
    rw [hl₂]
    simp

/-- Witness for C6: a same-directory task with a file-backed caller session
is linked; a cross-directory task is not. -/
theorem c6_session_link_iff_witness :
    ((launchTask
        { spawn := fun _ => .ok "%9", uuid8 := fun _ => "bbbbbbbb", now := 3, ctxCwd := "/w",
          parentSessionFile := some "/s/p.jsonl", parentSessionDir := some "/s",
          runId := "run6", tmpdir := "/tmp" }
        "/tmp/pi-tmux-delegate/run6" 0 ⟨some "a", "t", none⟩).sessionFile ≠ "") ∧
    ((launchTask
        { spawn := fun _ => .ok "%9", uuid8 := fun _ => "bbbbbbbb", now := 3, ctxCwd := "/w",
          parentSessionFile := some "/s/p.jsonl", parentSessionDir := some "/s",
          runId := "run6", tmpdir := "/tmp" }
        "/tmp/pi-tmux-delegate/run6" 1 ⟨some "a", "t", some "/elsewhere"⟩).sessionFile = "") :=
  ⟨(c6_session_link_iff _ _ 0 _).1.mpr ⟨rfl, rfl, rfl⟩,
    (c6_session_link_iff _ _ 1 _).2 (by decide)⟩

end ClaimC6

section ClaimC7

/-- Claim C7: when the backend rejects the spawn of one task in a batch, that
task is recorded immediately as Failed with exitCode 1 and an empty backend
handle, every sibling with an accepted spawn is still launched as Running
with its pane id, the task count is preserved, and the call returns the
launched outcome rather than raising. -/
theorem c7_spawn_failure_isolated (env : LaunchEnv) (p : DelegateParams)
    (j : Nat) (tj : NormalizedTask)
    (hn : (normalizeTasks p).length ≠ 0)
    (hm : (normalizeTasks p).length ≤ MAX_PARALLEL_TASKS)
    (hj : (normalizeTasks p)[j]? = some tj)
    (hfail : env.spawn j = SpawnResult.err) :
    (executeDelegate env p).1 = DelegateOutcome.launched (initialRunState env (normalizeTasks p)) ∧
    (initialRunState env (normalizeTasks p)).tasks.length = (normalizeTasks p).length ∧
    ((initialRunState env (normalizeTasks p)).tasks[j]?).map TaskState.status
        = some TaskStatus.failed ∧
    ((initialRunState env (normalizeTasks p)).tasks[j]?).map TaskState.exitCode
        = some (some 1) ∧
    ((initialRunState env (normalizeTasks p)).tasks[j]?).map TaskState.paneId = some "" ∧
    (∀ (k : Nat) (u : NormalizedTask) (pid : String),
      (normalizeTasks p)[k]? = some u → env.spawn k = SpawnResult.ok pid →
      ((initialRunState env (normalizeTasks p)).tasks[k]?).map TaskState.status
          = some TaskStatus.running ∧
      ((initialRunState env (normalizeTasks p)).tasks[k]?).map TaskState.paneId = some pid) := by
  have houtcome : (executeDelegate env p).1
      = DelegateOutcome.launched (initialRunState env (normalizeTasks p)) := by
    unfold executeDelegate
    rw [if_neg hn, if_neg (Nat.not_lt.mpr hm)]
  have htasks : (initialRunState env (normalizeTasks p)).tasks
      = launchTasks env (runDirOf env.tmpdir env.runId) 0 (normalizeTasks p) := rfl
  have hget : ∀ k : Nat, ((initialRunState env (normalizeTasks p)).tasks[k]?)
      = ((normalizeTasks p)[k]?).map
          (launchTask env (runDirOf env.tmpdir env.runId) k) := by
    intro k
    rw [htasks, launchTasks_getElem? env (runDirOf env.tmpdir env.runId) (normalizeTasks p) 0 k]
    rw [Nat.zero_add]
  have hfj : launchTask env (runDirOf env.tmpdir env.runId) j tj =
      { id := env.uuid8 j
        agent := tj.agentName.getD "task"
        task := tj.task
        cwd := tj.cwd.getD env.ctxCwd
        status := .failed
        windowName := ""
        paneId := ""
        outputFile := ""
        exitCodeFile := ""
        sessionFile := (if linkDecision env tj then
          some (createChildSessionFile (env.parentSessionDir.getD "") env.now (env.uuid8 j))
        else none).getD ""
        startedAt := env.now
        finishedAt := some env.now
        exitCode := some 1
        model := none } := by
    unfold launchTask
    rw [hfail]
  refine ⟨houtcome, by rw [htasks, launchTasks_length], ?_, ?_, ?_, ?_⟩
  · rw [hget j, hj, Option.map_some', hfj]; rfl
  · rw [hget j, hj, Option.map_some', hfj]; rfl
  · rw [hget j, hj, Option.map_some', hfj]; rfl
  · intro k u pid hk hok
    have hfk : launchTask env (runDirOf env.tmpdir env.runId) k u =
        { id := env.uuid8 k
          agent := u.agentName.getD "task"
          task := u.task
          cwd := u.cwd.getD env.ctxCwd
          status := .running
          windowName := "delegate:" ++ u.agentName.getD "task" ++ ":" ++ env.uuid8 k
          paneId := pid
          outputFile := runTaskOutputFile (runDirOf env.tmpdir env.runId) k
          exitCodeFile := runTaskExitCodeFile (runDirOf env.tmpdir env.runId) k
          sessionFile := (if linkDecision env u then
            some (createChildSessionFile (env.parentSessionDir.getD "") env.now (env.uuid8 k))
          else none).getD ""
          startedAt := env.now
          finishedAt := none
          exitCode := none
          model := none } := by
      unfold launchTask
      rw [hok]
    constructor
    · rw [hget k, hk, Option.map_some', hfk]; rfl
    · rw [hget k, hk, Option.map_some', hfk]; rfl

/-- Launch environment for the C7 witness: spawn fails exactly at index 1. -/
def c7Env : LaunchEnv :=
  { spawn := fun i => if i = 1 then .err else .ok ("%" ++ toString i)
    uuid8 := fun i => "id" ++ toString i
    now := 0
    ctxCwd := "/w"
    parentSessionFile := some "/s/parent.jsonl"
    parentSessionDir := some "/s"
    runId := "run7"
    tmpdir := "/tmp" }

/-- Parameters for the C7 witness: a batch of three tasks. -/
def c7Params : DelegateParams :=
  { task := none, agent := none, cwd := none
    tasks := some [⟨some "a", "t1", none⟩, ⟨some "b", "t2", none⟩, ⟨some "c", "t3", none⟩]
    wait := none }

/-- Witness for C7: of three requested tasks, the one whose spawn is rejected
is immediately Failed with exit code 1 and no pane, while its siblings are
launched Running. -/
theorem c7_spawn_failure_isolated_witness :
    ((initialRunState c7Env (normalizeTasks c7Params)).tasks[1]?).map TaskState.status
        = some TaskStatus.failed ∧
    ((initialRunState c7Env (normalizeTasks c7Params)).tasks[0]?).map TaskState.status
        = some TaskStatus.running ∧
    ((initialRunState c7Env (normalizeTasks c7Params)).tasks[2]?).map TaskState.status
        = some TaskStatus.running ∧
    (executeDelegate c7Env c7Params).1
        = DelegateOutcome.launched (initialRunState c7Env (normalizeTasks c7Params)) := by
  have h := c7_spawn_failure_isolated c7Env c7Params 1 ⟨some "b", "t2", none⟩
    (by decide) (by decide) (by decide) (by decide)
  exact ⟨h.2.2.1,
    (h.2.2.2.2.2 0 ⟨some "a", "t1", none⟩ "%0" (by decide) (by decide)).1,
    (h.2.2.2.2.2 2 ⟨some "c", "t3", none⟩ "%2" (by decide) (by decide)).1,
    h.1⟩

end ClaimC7

section ClaimC8

/-- Claim C8: a run request with zero task specs fails with the NoTasks
validation error and produces no effect at all (no run directory, no spawn,
no persisted state); a request with more than MAX_PARALLEL_TASKS = 8 specs
fails with TooManyTasks, again with no effect, hence before any spawn; a
request with between 1 and 8 specs passes both validations and is launched. -/
theorem c8_validation (env : LaunchEnv) (p : DelegateParams) :
    ((normalizeTasks p).length = 0 → executeDelegate env p = (DelegateOutcome.noTasks, [])) ∧
    (MAX_PARALLEL_TASKS < (normalizeTasks p).length →
      executeDelegate env p = (DelegateOutcome.tooManyTasks (normalizeTasks p).length, [])) ∧
    ((normalizeTasks p).length ≠ 0 → (normalizeTasks p).length ≤ MAX_PARALLEL_TASKS →
      (executeDelegate env p).1
        = DelegateOutcome.launched (initialRunState env (normalizeTasks p))) := by
  refine ⟨?_, ?_, ?_⟩
  · intro h0
    unfold executeDelegate
    rw [if_pos h0]
  · intro h9
    have h0 : ¬((normalizeTasks p).length = 0) := by omega
    unfold executeDelegate
    rw [if_neg h0, if_pos h9]
  · intro h0 h8
    unfold executeDelegate
    rw [if_neg h0, if_neg (Nat.not_lt.mpr h8)]

/-- Parameters with zero task specs. -/
def c8P0 : DelegateParams :=
  { task := none, agent := none, cwd := none, tasks := none, wait := none }

/-- Parameters with nine task specs. -/
def c8P9 : DelegateParams :=
  { task := none, agent := none, cwd := none
    tasks := some [⟨none, "t1", none⟩, ⟨none, "t2", none⟩, ⟨none, "t3", none⟩,
      ⟨none, "t4", none⟩, ⟨none, "t5", none⟩, ⟨none, "t6", none⟩,
      ⟨none, "t7", none⟩, ⟨none, "t8", none⟩, ⟨none, "t9", none⟩]
    wait := none }

/-- Parameters with a single task spec. -/
def c8P1 : DelegateParams :=
  { task := some "solo", agent := none, cwd := none, tasks := none, wait := none }

/-- Witness for C8 at zero, nine and one task specs. -/
theorem c8_validation_witness :
    executeDelegate c2Env c8P0 = (DelegateOutcome.noTasks, []) ∧
    executeDelegate c2Env c8P9 = (DelegateOutcome.tooManyTasks 9, []) ∧
    (executeDelegate c2Env c8P1).1
        = DelegateOutcome.launched (initialRunState c2Env (normalizeTasks c8P1)) := by
  refine ⟨(c8_validation c2Env c8P0).1 (by decide), ?_,
    (c8_validation c2Env c8P1).2.2 (by decide) (by decide)⟩
  have h := (c8_validation c2Env c8P9).2.1 (by decide)
  have hl : (normalizeTasks c8P9).length = 9 := by decide
  rw [hl] at h
  exact h

end ClaimC8

end TmuxDelegate
